import Mathlib

/-!
Verification of the AhPushIt clip-sequencer core against its specification.

The Python sources are embedded shallowly: floats become rationals,
Python lists become Lean lists (with None slots as Option), dictionaries
become functions into Option, and fallible operations return Except.
-/

/-- Truncation of a rational toward zero, the behaviour of the Python
builtin int() applied to a float. -/
def pyInt (x : ℚ) : ℤ := if 0 ≤ x then ⌊x⌋ else ⌈x⌉

/-- Modelled from the spec: definitions.GRID_WIDTH (definitions.py is not
among the provided sources).  The controller grid is 8 columns wide
(the spec fixes 8 tracks / 8 physical track buttons and pages equal to
ceil of steps over grid width). -/
def GRID_WIDTH : ℤ := 8

/-- Modelled from the spec: the play-state sentinels of
definitions.ClipStates (definitions.py is not among the provided
sources); section 4.1 of the spec lists the states. -/
inductive PlayStatus where
  | stopped
  | cued_to_play
  | playing
  | cued_to_stop
deriving DecidableEq, Repr

/-- Modelled from the spec: the record-state sentinels of
definitions.ClipStates. -/
inductive RecordStatus where
  | no_recording
  | cued_to_record
  | recording
  | cued_to_stop_recording
deriving DecidableEq, Repr

/-- Modelled from the spec: the emptiness sentinels of
definitions.ClipStates. -/
inductive EmptyStatus where
  | is_empty
  | is_not_empty
deriving DecidableEq, Repr

/-- Mirrors the ClipStatus NamedTuple of src/clip.py. -/
structure ClipStatus where
  play_status : PlayStatus
  record_status : RecordStatus
  empty_status : EmptyStatus
  clip_length : ℚ
  quantization_step : ℚ
deriving DecidableEq, Repr

/-- Mirrors the state of a Clip object from src/clip.py.  The parent
track reference is kept only as presence information (the operations of
clip.py test it against None).  Sequence slots holding None are Option
none. -/
structure Clip where
  playing : Bool
  recording : Bool
  will_play_at : ℚ
  will_stop_at : ℚ
  will_start_recording_at : ℚ
  will_stop_recording_at : ℚ
  clip_length_in_beats : ℚ
  beats_per_bar : ℤ
  step_divisions : ℤ
  steps : ℤ
  pages : ℚ
  current_page : ℤ
  current_quantization_step : ℚ
  playhead_position_in_beats : ℚ
  bpm_multiplier : ℚ
  wrap_events_across_clip_loop : Bool
  clip_status : ClipStatus
  notes : List (Option ℤ)
  durations : List (Option ℚ)
  amplitudes : List (Option ℚ)
  track : Option Unit
deriving DecidableEq, Repr

/-- Mirrors Clip.get_status of src/clip.py. -/
def Clip.get_status (c : Clip) : ClipStatus :=
  let record_status :=
    if 0 ≤ c.will_start_recording_at then RecordStatus.cued_to_record
    else if 0 ≤ c.will_stop_recording_at then RecordStatus.cued_to_stop_recording
    else if c.recording then RecordStatus.recording
    else RecordStatus.no_recording
  let play_status :=
    if 0 ≤ c.will_play_at then PlayStatus.cued_to_play
    else if 0 ≤ c.will_stop_at then PlayStatus.cued_to_stop
    else if c.playing then PlayStatus.playing
    else PlayStatus.stopped
  let empty_status :=
    if c.clip_length_in_beats = 0 then EmptyStatus.is_empty
    else EmptyStatus.is_not_empty
  { play_status := play_status
    record_status := record_status
    empty_status := empty_status
    clip_length := c.clip_length_in_beats
    quantization_step := c.current_quantization_step }

/-- Mirrors Clip.is_empty of src/clip.py. -/
def Clip.is_empty (c : Clip) : Bool :=
  c.get_status.empty_status == EmptyStatus.is_empty

/-- Mirrors Clip.__init__ of src/clip.py (the clip_status field is first
given a placeholder, then set to get_status exactly as the constructor
does). -/
def Clip.init (tr : Option Unit) : Clip :=
  let steps0 : ℤ := pyInt ((4 : ℚ) / 4 * 16)
  let base : Clip :=
    { playing := false
      recording := false
      will_play_at := -1
      will_stop_at := -1
      will_start_recording_at := -1
      will_stop_recording_at := -1
      clip_length_in_beats := 4
      beats_per_bar := 4
      step_divisions := 16
      steps := steps0
      pages := (steps0 : ℚ) / (GRID_WIDTH : ℚ)
      current_page := 0
      current_quantization_step := 0
      playhead_position_in_beats := 0
      bpm_multiplier := 1
      wrap_events_across_clip_loop := false
      clip_status :=
        { play_status := PlayStatus.stopped
          record_status := RecordStatus.no_recording
          empty_status := EmptyStatus.is_not_empty
          clip_length := 4
          quantization_step := 0 }
      notes := List.replicate steps0.toNat none
      durations := List.replicate steps0.toNat none
      amplitudes := List.replicate steps0.toNat none
      track := tr }
  { base with clip_status := base.get_status }

/-- Mirrors the steps property setter of src/clip.py: stores the value
and recomputes pages as the ceiling of steps over the grid width. -/
def Clip.set_steps (c : Clip) (value : ℤ) : Clip :=
  { c with steps := value, pages := (⌈(value : ℚ) / (GRID_WIDTH : ℚ)⌉ : ℚ) }

/-- Mirrors the clip_length_in_beats property setter of src/clip.py:
stores the new length, recomputes steps with Python int() truncation,
and recomputes pages (through the steps and pages setters). -/
def Clip.set_clip_length_in_beats (c : Clip) (value : ℚ) : Clip :=
  let c1 := { c with clip_length_in_beats := value }
  let st := pyInt (value / (c1.beats_per_bar : ℚ) * (c1.step_divisions : ℚ))
  let c2 := c1.set_steps st
  { c2 with pages := (⌈(c2.steps : ℚ) / (GRID_WIDTH : ℚ)⌉ : ℚ) }

/-- Mirrors the step_divisions property setter of src/clip.py. -/
def Clip.set_step_divisions (c : Clip) (value : ℤ) : Clip :=
  let c1 := { c with step_divisions := value }
  let st := pyInt (c1.clip_length_in_beats / (c1.beats_per_bar : ℚ) * (value : ℚ))
  let c2 := c1.set_steps st
  { c2 with pages := (⌈(c2.steps : ℚ) / (GRID_WIDTH : ℚ)⌉ : ℚ) }

/-- Mirrors Clip.clear of src/clip.py: the three sequence arrays are
reset to steps-many None slots; nothing else changes. -/
def Clip.clear (c : Clip) : Clip :=
  { c with
    notes := List.replicate c.steps.toNat none
    durations := List.replicate c.steps.toNat none
    amplitudes := List.replicate c.steps.toNat none }

/-- Mirrors Clip.double of src/clip.py: each sequence array is
concatenated with itself; length, steps and pages are not touched. -/
def Clip.double (c : Clip) : Clip :=
  { c with
    notes := c.notes ++ c.notes
    durations := c.durations ++ c.durations
    amplitudes := c.amplitudes ++ c.amplitudes }

/-- Mirrors Clip.get_note_at_position of src/clip.py: an explicit bounds
check (0 is less-or-equal to position and position less than the array
length) guards the read; outside the range an IndexError is raised. -/
def Clip.get_note_at_position (c : Clip) (position : ℤ) :
    Except String (Option ℤ) :=
  if 0 ≤ position ∧ position < (c.notes.length : ℤ) then
    Except.ok (c.notes.getD position.toNat none)
  else
    Except.error "Note position out of range"

/-- Mirrors Clip.get_duration_at_position of src/clip.py. -/
def Clip.get_duration_at_position (c : Clip) (position : ℤ) :
    Except String (Option ℚ) :=
  if 0 ≤ position ∧ position < (c.durations.length : ℤ) then
    Except.ok (c.durations.getD position.toNat none)
  else
    Except.error "Duration position out of range"

/-- Mirrors Clip.get_amplitude_at_position of src/clip.py. -/
def Clip.get_amplitude_at_position (c : Clip) (position : ℤ) :
    Except String (Option ℚ) :=
  if 0 ≤ position ∧ position < (c.amplitudes.length : ℤ) then
    Except.ok (c.amplitudes.getD position.toNat none)
  else
    Except.error "Amplitude position out of range"

/-- Python list item assignment: a negative index is taken from the end
of the list; an index that still falls outside the list raises an
IndexError. -/
def pyListSet {α : Type} (xs : List α) (position : ℤ) (v : α) :
    Except String (List α) :=
  let j : ℤ := if position < 0 then position + (xs.length : ℤ) else position
  if 0 ≤ j ∧ j < (xs.length : ℤ) then
    Except.ok (xs.set j.toNat v)
  else
    Except.error "list assignment index out of range"

/-- Mirrors Clip.set_note_at_position of src/clip.py: a bare Python list
item assignment with no bounds check of its own, followed by a
reschedule request when the clip is playing (returned as the Bool
component). -/
def Clip.set_note_at_position (c : Clip) (position : ℤ) (note : ℤ) :
    Except String (Clip × Bool) :=
  match pyListSet c.notes position (some note) with
  | Except.ok ns => Except.ok ({ c with notes := ns }, c.playing)
  | Except.error e => Except.error e

/-- Mirrors Clip.set_duration_at_position of src/clip.py: when position
exceeds the array length the value is appended; otherwise a Python list
item assignment is performed.  The isinstance float branch of the source
is vacuous here because durations is typed as a list. -/
def Clip.set_duration_at_position (c : Clip) (position : ℤ) (duration : ℚ) :
    Except String (Clip × Bool) :=
  if (c.durations.length : ℤ) < position then
    Except.ok ({ c with durations := c.durations ++ [some duration] }, c.playing)
  else
    match pyListSet c.durations position (some duration) with
    | Except.ok ds => Except.ok ({ c with durations := ds }, c.playing)
    | Except.error e => Except.error e

/-- Mirrors Clip.set_amplitude_at_position of src/clip.py. -/
def Clip.set_amplitude_at_position (c : Clip) (position : ℤ) (amplitude : ℚ) :
    Except String (Clip × Bool) :=
  if (c.amplitudes.length : ℤ) < position then
    Except.ok ({ c with amplitudes := c.amplitudes ++ [some amplitude] }, c.playing)
  else
    match pyListSet c.amplitudes position (some amplitude) with
    | Except.ok amps => Except.ok ({ c with amplitudes := amps }, c.playing)
    | Except.error e => Except.error e

/-- Presence flags of the attributes the clip operations probe on the
app object reached through the parent chain (src/clip.py tests the app
for a seq attribute in play and for a session attribute in stop). -/
structure ClipEnv where
  hasSeq : Bool
  hasSession : Bool
deriving DecidableEq, Repr

/-- External calls a clip operation issues through the app. -/
inductive ClipEffect where
  | scheduleClip
  | scheduleClipStop
deriving DecidableEq, Repr

/-- Mirrors Clip.play of src/clip.py: a no-op when the clip has no
owning track; otherwise asks the sequencer to schedule the clip (when
the app exposes one), sets will_play_at to 0.0 and refreshes the
status. -/
def Clip.play (env : ClipEnv) (c : Clip) : Clip × List ClipEffect :=
  match c.track with
  | none => (c, [])
  | some _ =>
    let effects := if env.hasSeq then [ClipEffect.scheduleClip] else []
    let c1 := { c with will_play_at := 0 }
    ({ c1 with clip_status := c1.get_status }, effects)

/-- Mirrors Clip.stop of src/clip.py. -/
def Clip.stop (env : ClipEnv) (c : Clip) : Clip × List ClipEffect :=
  match c.track with
  | none => (c, [])
  | some _ =>
    let effects := if env.hasSession then [ClipEffect.scheduleClipStop] else []
    let c1 := { c with will_stop_at := 0 }
    ({ c1 with clip_status := c1.get_status }, effects)

/-- Mirrors Clip.play_stop of src/clip.py. -/
def Clip.play_stop (env : ClipEnv) (c : Clip) : Clip × List ClipEffect :=
  match c.track with
  | none => (c, [])
  | some _ => if c.playing then c.stop env else c.play env

/-- Mirrors Clip.record_on_off of src/clip.py: toggles recording
immediately and refreshes the status; a no-op without an owning
track. -/
def Clip.record_on_off (c : Clip) : Clip × List ClipEffect :=
  match c.track with
  | none => (c, [])
  | some _ =>
    let c1 := { c with recording := !c.recording }
    ({ c1 with clip_status := c1.get_status }, [])

/-- The slice of a clip that MidiManager.schedule_clip of
src/midi_manager.py reads: the output device name reached through
clip.track.output_hardware_device_name, the notes array and the playing
flag. -/
structure MClip where
  output_hardware_device_name : String
  notes : List (Option ℤ)
  playing : Bool
deriving DecidableEq, Repr

/-- Mirrors the MidiManager state of src/midi_manager.py that the
scheduling operations touch.  The timeline field models the set of
schedules currently registered with the global isobar timeline; each
live schedule is recorded with the track key that registered it and a
unique handle (fresh counts the handles handed out so far).  The two
dictionaries track_schedules and track_clips are modelled as functions
into Option.  The output_devices dictionary only matters through
membership, so it is a Boolean predicate on device names
(update_midi_devices only merges name lists and never adds device
objects, so get_output_device always returns the dictionary entry). -/
structure MidiManager where
  output_devices : String → Bool
  timeline : List (String × ℕ)
  fresh : ℕ
  track_schedules : String → Option ℕ
  track_clips : String → Option MClip

/-- Mirrors the initial MidiManager state of src/midi_manager.py: no
schedules registered, both dictionaries empty. -/
def MidiManager.start (devs : String → Bool) : MidiManager :=
  { output_devices := devs
    timeline := []
    fresh := 0
    track_schedules := fun _ => none
    track_clips := fun _ => none }

/-- Mirrors MidiManager.unschedule_clip of src/midi_manager.py: when the
track key has a schedule, that schedule is removed from the timeline
and from track_schedules; the track_clips entry is dropped
independently. -/
def MidiManager.unschedule_clip (m : MidiManager) (track_idx : String) :
    MidiManager :=
  let m1 :=
    match m.track_schedules track_idx with
    | some h =>
      { m with
        timeline := m.timeline.filter (fun e => e.2 != h)
        track_schedules := fun k =>
          if k = track_idx then none else m.track_schedules k }
    | none => m
  { m1 with
    track_clips := fun k => if k = track_idx then none else m1.track_clips k }

/-- Mirrors MidiManager.schedule_clip of src/midi_manager.py: first
unconditionally unschedules the track key, then aborts if the clip's
output device does not resolve or the clip has no notes; otherwise
registers a new schedule with the timeline and records it in both
dictionaries. -/
def MidiManager.schedule_clip (m : MidiManager) (track_idx : String)
    (clip : MClip) : MidiManager :=
  if !((m.unschedule_clip track_idx).output_devices
      clip.output_hardware_device_name) then
    m.unschedule_clip track_idx
  else if clip.notes.length == 0 then
    m.unschedule_clip track_idx
  else
    { m.unschedule_clip track_idx with
      timeline := (track_idx, (m.unschedule_clip track_idx).fresh) ::
        (m.unschedule_clip track_idx).timeline
      fresh := (m.unschedule_clip track_idx).fresh + 1
      track_schedules := fun k =>
        if k = track_idx then some (m.unschedule_clip track_idx).fresh
        else (m.unschedule_clip track_idx).track_schedules k
      track_clips := fun k =>
        if k = track_idx then some clip
        else (m.unschedule_clip track_idx).track_clips k }

/-- Mirrors MidiManager.reschedule_clip of src/midi_manager.py: only
effective when the track key has a live schedule and the clip reports
playing. -/
def MidiManager.reschedule_clip (m : MidiManager) (track_idx : String)
    (clip : MClip) : MidiManager :=
  if (m.track_schedules track_idx).isSome && clip.playing then
    m.schedule_clip track_idx clip
  else m

/-- Number of schedules currently registered with the timeline on behalf
of the given track key. -/
def MidiManager.liveScheduleCount (m : MidiManager) (track_idx : String) : ℕ :=
  (m.timeline.filter (fun e => e.1 == track_idx)).length

/-- Scheduling-state invariant of the MidiManager: the timeline holds
exactly the schedule recorded in track_schedules for each track key,
every live handle is below the fresh counter, and handles are
pairwise distinct. -/
def MidiManager.Inv (m : MidiManager) : Prop :=
  (∀ k, m.timeline.filter (fun e => e.1 == k) =
      (match m.track_schedules k with
       | some h => [(k, h)]
       | none => [])) ∧
  (∀ e ∈ m.timeline, e.2 < m.fresh) ∧
  (m.timeline.map Prod.snd).Nodup

/-- A track key has a recorded clip exactly when it has a recorded
schedule. -/
def MidiManager.KeysAgree (m : MidiManager) : Prop :=
  ∀ k, (m.track_schedules k).isSome = (m.track_clips k).isSome

/-- The three scheduling operations of MidiManager, as data, so that
arbitrary call sequences can be quantified over. -/
inductive MMOp where
  | sched (track_idx : String) (clip : MClip)
  | unsched (track_idx : String)
  | resched (track_idx : String) (clip : MClip)

/-- Runs one scheduling operation. -/
def MidiManager.applyOp (m : MidiManager) : MMOp → MidiManager
  | MMOp.sched k c => m.schedule_clip k c
  | MMOp.unsched k => m.unschedule_clip k
  | MMOp.resched k c => m.reschedule_clip k c

/-- Runs a sequence of scheduling operations in order. -/
def MidiManager.applyOps (m : MidiManager) (ops : List MMOp) : MidiManager :=
  ops.foldl MidiManager.applyOp m

/-- Mirrors MidiManager.get_next_bar_boundary of src/midi_manager.py
(src/session.py carries the identical method): 0.0 when the timeline is
not running, otherwise the next multiple of 4 times bars_per_quantize
beats strictly after the current beat, computed with Python float floor
division. -/
def MidiManager.get_next_bar_boundary (running : Bool) (current_time : ℚ)
    (bars_per_quantize : ℤ) : ℚ :=
  if !running then 0
  else
    let beats_per_quantize : ℚ := 4 * (bars_per_quantize : ℚ)
    ((⌊current_time / beats_per_quantize⌋ : ℚ) + 1) * beats_per_quantize

/-- The slice of a clip that Session.scene_play would have to act on:
the playing flag and the cue timestamps. -/
structure SClip where
  playing : Bool
  will_play_at : ℚ
  will_stop_at : ℚ
deriving DecidableEq, Repr

/-- A session track as a list of clip slots indexed by scene number. -/
structure STrack where
  clips : List SClip
deriving DecidableEq, Repr

/-- The session state scene operations act on: the track list and the
pending-actions queue of src/session.py. -/
structure SessionState where
  tracks : List STrack
  pending_actions : List (ℚ × Bool)
deriving DecidableEq, Repr

/-- Mirrors Session.scene_play of src/session.py (lines 94 and 95): the
method only prints a log line and returns; no track, clip or queue state
is modified. -/
def Session.scene_play (_scene_number : ℕ) (s : SessionState) : SessionState :=
  s

/-- A session with one track whose scene-0 clip is stopped and whose
scene-1 clip is currently playing with no pending cue. -/
def exampleSession : SessionState :=
  { tracks :=
      [{ clips := [{ playing := false, will_play_at := -1, will_stop_at := -1 },
                   { playing := true, will_play_at := -1, will_stop_at := -1 }] }]
    pending_actions := [] }

/-- The clip attribute set that ProjectManager.save_project of
src/project_manager.py writes to the project JSON document for one
clip.  JSON serialization of integers, rationals and null round-trips,
so the saved record holds the values themselves. -/
structure SavedClip where
  clip_length_in_beats : ℚ
  step_divisions : ℤ
  beats_per_bar : ℤ
  notes : List (Option ℤ)
  durations : List (Option ℚ)
  amplitudes : List (Option ℚ)
deriving DecidableEq, Repr

/-- Mirrors the clip_data entry built by ProjectManager.save_project of
src/project_manager.py. -/
def saveClip (c : Clip) : SavedClip :=
  { clip_length_in_beats := c.clip_length_in_beats
    step_divisions := c.step_divisions
    beats_per_bar := c.beats_per_bar
    notes := c.notes
    durations := c.durations
    amplitudes := c.amplitudes }

/-- Value domain of a numpy float32 array element: either NaN (what
numpy turns a null into) or a number.  The float32 rounding of in-range
numbers is not modelled; no theorem below depends on the payload. -/
inductive F32 where
  | nan
  | val (q : ℚ)
deriving DecidableEq, Repr

/-- Mirrors the numpy conversion np.array(xs, dtype=np.float32) applied
by ProjectManager.load_project to the durations list: null elements
become NaN. -/
def npFloat32Array (xs : List (Option ℚ)) : List F32 :=
  xs.map (fun x => match x with
    | some q => F32.val q
    | none => F32.nan)

/-- Mirrors the numpy conversion np.array(xs, dtype=np.uint8) applied by
ProjectManager.load_project to the amplitudes list: a null element
raises a TypeError; a number is truncated to an integer modulo 256. -/
def npUint8Array : List (Option ℚ) → Except String (List ℤ)
  | [] => Except.ok []
  | none :: _ => Except.error "TypeError: int() argument cannot be NoneType"
  | some q :: rest =>
    match npUint8Array rest with
    | Except.ok l => Except.ok (pyInt q % 256 :: l)
    | Except.error e => Except.error e

/-- Mirrors the per-clip array restoration of
ProjectManager.load_project of src/project_manager.py, in source order:
the notes list is taken as an object array unchanged, the durations list
is cast to float32, the amplitudes list is cast to uint8; the first
raised exception aborts the load (the caller catches it, restores the
previous session and returns False). -/
def loadClipArrays (sc : SavedClip) :
    Except String (List (Option ℤ) × List F32 × List ℤ) :=
  match npUint8Array sc.amplitudes with
  | Except.ok amps => Except.ok (sc.notes, npFloat32Array sc.durations, amps)
  | Except.error e => Except.error e

/-- Mirrors the outcome of ProjectManager.load_project for one saved
clip: True only when every array conversion succeeds. -/
def loadClipOk (sc : SavedClip) : Bool :=
  match loadClipArrays sc with
  | Except.ok _ => true
  | Except.error _ => false

/-- A concrete one-bar clip with four steps, all slots empty, owned by a
track. -/
def exClip : Clip :=
  { playing := false
    recording := false
    will_play_at := -1
    will_stop_at := -1
    will_start_recording_at := -1
    will_stop_recording_at := -1
    clip_length_in_beats := 1
    beats_per_bar := 4
    step_divisions := 16
    steps := 4
    pages := 1
    current_page := 0
    current_quantization_step := 0
    playhead_position_in_beats := 0
    bpm_multiplier := 1
    wrap_events_across_clip_loop := false
    clip_status :=
      { play_status := PlayStatus.stopped
        record_status := RecordStatus.no_recording
        empty_status := EmptyStatus.is_not_empty
        clip_length := 1
        quantization_step := 0 }
    notes := [none, none, none, none]
    durations := [none, none, none, none]
    amplitudes := [none, none, none, none]
    track := some () }

/-- Claim C1: Session.scene_play is claimed to cue all playing clips to
stop and the target scene's clips to start on the next bar boundary.
The source method (src/session.py lines 94 and 95) only logs: it is the
identity on session state, so a clip of a different scene that was
playing before scene_play is still playing afterwards and carries no
stop cue, and no state ever changes when the timeline advances.  This
theorem evaluates the embedded code at such a failing input. -/
theorem scene_play_is_a_stub :
    Session.scene_play 0 exampleSession = exampleSession ∧
    (((Session.scene_play 0 exampleSession).tracks.getD 0
        { clips := [] }).clips.getD 1
        { playing := false, will_play_at := -1, will_stop_at := -1 }).playing
      = true ∧
    (((Session.scene_play 0 exampleSession).tracks.getD 0
        { clips := [] }).clips.getD 1
        { playing := false, will_play_at := -1, will_stop_at := -1 }).will_stop_at
      = -1 :=
  ⟨rfl, rfl, rfl⟩

/-- Claim C3, counterexample: get_next_bar_boundary does not return the
claimed formula for every current beat position — when the timeline is
not running it returns 0.0, which at current beat 5.5 is neither the
formula value 8 nor strictly greater than the current beat. -/
theorem get_next_bar_boundary_stopped_counterexample :
    MidiManager.get_next_bar_boundary false (11 / 2) 1 = 0 ∧
    ¬ ((11 / 2 : ℚ) < MidiManager.get_next_bar_boundary false (11 / 2) 1) := by
  constructor
  · norm_num [MidiManager.get_next_bar_boundary]
  · norm_num [MidiManager.get_next_bar_boundary]

/-- Claim C3, amended: when the timeline is running,
get_next_bar_boundary returns
((current_beat // (4 * bars_per_quantize)) + 1) * (4 * bars_per_quantize)
and that value is strictly greater than the current beat; when the
timeline is not running it returns 0.0 instead. -/
theorem get_next_bar_boundary_formula_when_running (current_time : ℚ)
    (bars_per_quantize : ℤ) (hb : 0 < bars_per_quantize) :
    MidiManager.get_next_bar_boundary true current_time bars_per_quantize =
      ((⌊current_time / (4 * (bars_per_quantize : ℚ))⌋ : ℚ) + 1) *
        (4 * (bars_per_quantize : ℚ)) ∧
    current_time <
      MidiManager.get_next_bar_boundary true current_time bars_per_quantize := by
  have hq : (0 : ℚ) < 4 * (bars_per_quantize : ℚ) := by
    have : (0 : ℚ) < (bars_per_quantize : ℚ) := by exact_mod_cast hb
    linarith
  constructor
  · simp [MidiManager.get_next_bar_boundary]
  · have hlt : current_time / (4 * (bars_per_quantize : ℚ)) <
        (⌊current_time / (4 * (bars_per_quantize : ℚ))⌋ : ℚ) + 1 :=
      Int.lt_floor_add_one _
    have := (div_lt_iff₀ hq).mp hlt
    simpa [MidiManager.get_next_bar_boundary] using this

/-- Claim C3, witness: at current beat 5.5 with bars_per_quantize 1 the
running-timeline boundary is 8.0 and lies strictly in the future. -/
theorem get_next_bar_boundary_witness :
    (0 : ℤ) < 1 ∧
    MidiManager.get_next_bar_boundary true (11 / 2) 1 = 8 ∧
    (11 / 2 : ℚ) < MidiManager.get_next_bar_boundary true (11 / 2) 1 := by
  have h := get_next_bar_boundary_formula_when_running (11 / 2) 1 (by norm_num)
  refine ⟨by norm_num, ?_, h.2⟩
  rw [h.1]
  norm_num

/-- Claim C4: after every mutation through the clip_length_in_beats or
step_divisions setter (with the data-model ranges: nonnegative length
and divisions, positive beats_per_bar), the steps attribute equals the
floor of clip_length_in_beats over beats_per_bar times step_divisions.
Python int() truncates toward zero, which agrees with floor on the
nonnegative values these attributes take. -/
theorem steps_track_length_and_divisions (c : Clip) (lv : ℚ) (dv : ℤ)
    (hbar : 0 < c.beats_per_bar) (hlv : 0 ≤ lv) (hdv : 0 ≤ dv)
    (hdiv : 0 ≤ c.step_divisions) (hlen : 0 ≤ c.clip_length_in_beats) :
    (c.set_clip_length_in_beats lv).steps =
      ⌊lv / (c.beats_per_bar : ℚ) * (c.step_divisions : ℚ)⌋ ∧
    (c.set_step_divisions dv).steps =
      ⌊c.clip_length_in_beats / (c.beats_per_bar : ℚ) * (dv : ℚ)⌋ := by
  have hbarQ : (0 : ℚ) < (c.beats_per_bar : ℚ) := by exact_mod_cast hbar
  constructor
  · have hx : (0 : ℚ) ≤ lv / (c.beats_per_bar : ℚ) * (c.step_divisions : ℚ) := by
      apply mul_nonneg (div_nonneg hlv hbarQ.le)
      exact_mod_cast hdiv
    simp [Clip.set_clip_length_in_beats, Clip.set_steps, pyInt, if_pos hx]
  · have hx : (0 : ℚ) ≤ c.clip_length_in_beats / (c.beats_per_bar : ℚ) * (dv : ℚ) := by
      apply mul_nonneg (div_nonneg hlen hbarQ.le)
      exact_mod_cast hdv
    simp [Clip.set_step_divisions, Clip.set_steps, pyInt, if_pos hx]

/-- Claim C4, witness: on the default clip (length 4, beats_per_bar 4,
divisions 16), setting the length to 6 yields 24 steps and setting the
divisions to 8 yields 8 steps, both matching the floor formula. -/
theorem steps_track_length_and_divisions_witness :
    (Clip.set_clip_length_in_beats (Clip.init (some ())) 6).steps = 24 ∧
    (Clip.set_step_divisions (Clip.init (some ())) 8).steps = 8 := by
  have h := steps_track_length_and_divisions (Clip.init (some ())) 6 8
    (by norm_num [Clip.init]) (by norm_num) (by norm_num)
    (by norm_num [Clip.init]) (by norm_num [Clip.init])
  constructor
  · rw [h.1]
    norm_num [Clip.init]
  · rw [h.2]
    norm_num [Clip.init]

/-- Claim C5, counterexample: clear() followed by is_empty() is not
always true — on the default clip (length 4 beats) clear() resets the
arrays but is_empty() still reports false, because the emptiness status
is derived solely from clip_length_in_beats, which clear() does not
touch. -/
theorem clear_then_is_empty_false_on_default_clip :
    Clip.is_empty (Clip.clear (Clip.init (some ()))) = false :=
  rfl

/-- Claim C5, amended: clear() resets all per-step sequence data
regardless of play state, but it leaves is_empty() unchanged: after
clear() the clip reports empty exactly when clip_length_in_beats is 0,
since the emptiness status depends only on the clip length. -/
theorem clear_preserves_is_empty (c : Clip) :
    (Clip.clear c).notes = List.replicate c.steps.toNat none ∧
    (Clip.clear c).durations = List.replicate c.steps.toNat none ∧
    (Clip.clear c).amplitudes = List.replicate c.steps.toNat none ∧
    Clip.is_empty (Clip.clear c) = Clip.is_empty c ∧
    (Clip.is_empty (Clip.clear c) = true ↔ c.clip_length_in_beats = 0) := by
  refine ⟨rfl, rfl, rfl, rfl, ?_⟩
  by_cases h : c.clip_length_in_beats = 0 <;>
    simp [Clip.is_empty, Clip.clear, Clip.get_status, h]

/-- Claim C6, counterexample: double() does not double the clip's length
and step count — on the default clip steps stays 16 (and the length
stays 4 beats) while the arrays grow to 32 slots. -/
theorem double_does_not_change_steps_counterexample :
    ¬ ((Clip.double (Clip.init (some ()))).steps =
        2 * (Clip.init (some ())).steps ∧
       (Clip.double (Clip.init (some ()))).clip_length_in_beats =
        2 * (Clip.init (some ())).clip_length_in_beats) := by
  intro h
  have := h.1
  rw [Clip.double] at this
  norm_num [Clip.init, pyInt] at this

/-- Claim C6, amended: double() duplicates the sequence arrays — each
array becomes its own concatenation with itself, so the array lengths
exactly double and the original content appears unchanged in the first
half — but the clip's clip_length_in_beats and steps attributes are not
changed. -/
theorem double_doubles_arrays_only (c : Clip) :
    (Clip.double c).notes = c.notes ++ c.notes ∧
    (Clip.double c).durations = c.durations ++ c.durations ∧
    (Clip.double c).amplitudes = c.amplitudes ++ c.amplitudes ∧
    (Clip.double c).notes.length = 2 * c.notes.length ∧
    (Clip.double c).durations.length = 2 * c.durations.length ∧
    (Clip.double c).amplitudes.length = 2 * c.amplitudes.length ∧
    (Clip.double c).notes.take c.notes.length = c.notes ∧
    (Clip.double c).durations.take c.durations.length = c.durations ∧
    (Clip.double c).amplitudes.take c.amplitudes.length = c.amplitudes ∧
    (Clip.double c).steps = c.steps ∧
    (Clip.double c).clip_length_in_beats = c.clip_length_in_beats := by
  refine ⟨rfl, rfl, rfl, ?_, ?_, ?_, ?_, ?_, ?_, rfl, rfl⟩ <;>
    simp [Clip.double, List.take_left, two_mul]

/-- Claim C7: saving and loading is claimed to reproduce each clip's
notes, durations and amplitudes arrays identically.  In the source,
load_project casts the saved amplitudes list with
np.array(..., dtype=np.uint8), which raises a TypeError on the None
slots that every step without a note carries (the default clip saves
all 16 amplitude slots as null); the exception is caught, the previous
session is restored and load returns False, so the saved arrays are
never reproduced.  This theorem evaluates the embedded save/load
pipeline at that failing input. -/
theorem load_of_saved_default_clip_fails :
    loadClipArrays (saveClip (Clip.init (some ()))) =
      Except.error "TypeError: int() argument cannot be NoneType" ∧
    loadClipOk (saveClip (Clip.init (some ()))) = false := by
  have h : (Clip.init (some ())).amplitudes = List.replicate 16 none := by
    norm_num [Clip.init, pyInt]
    rfl
  constructor
  · simp [loadClipArrays, saveClip, h, List.replicate_succ, npUint8Array]
  · simp [loadClipOk, loadClipArrays, saveClip, h, List.replicate_succ,
      npUint8Array]

/-- Success condition of a Python list item assignment: the index must
fall in the range from minus the length to one below the length. -/
theorem pyListSet_ok_iff {α : Type} (xs : List α) (position : ℤ) (v : α) :
    ((pyListSet xs position v).isOk = true) ↔
      (-(xs.length : ℤ) ≤ position ∧ position < (xs.length : ℤ)) := by
  simp only [pyListSet]
  by_cases hneg : position < 0 <;>
    simp only [hneg, if_true, if_false, ite_true, ite_false] <;>
    split_ifs with h <;>
    simp [Except.isOk, Except.toBool] <;>
    omega

/-- Claim C8, counterexample: the position-addressed set operation does
not signal an out-of-range error for every invalid index — on a 4-step
clip, set_note_at_position with position -1 (outside the valid range 0
to 3) succeeds and silently redirects the write to position 3, the last
slot. -/
theorem set_note_negative_index_redirects :
    (Clip.set_note_at_position exClip (-1) 60).toOption.map
      (fun p => (p.1.notes, p.2)) =
      some ([none, none, none, some 60], false) := by
  decide

/-- Claim C8, amended: the position-addressed getters signal an
out-of-range error exactly when the position lies outside 0 to length-1
and never clamp or redirect; the setters do not share that guarantee —
set_note_at_position succeeds on every Python-valid index from minus
the length upward, silently redirecting negative positions to slots
counted from the end (and the duration/amplitude setters silently
append when the position exceeds the array length). -/
theorem position_access_error_characterization (c : Clip) (position : ℤ) :
    ((c.get_note_at_position position).isOk = true ↔
      0 ≤ position ∧ position < (c.notes.length : ℤ)) ∧
    ((c.get_duration_at_position position).isOk = true ↔
      0 ≤ position ∧ position < (c.durations.length : ℤ)) ∧
    ((c.get_amplitude_at_position position).isOk = true ↔
      0 ≤ position ∧ position < (c.amplitudes.length : ℤ)) ∧
    (∀ note : ℤ, (c.set_note_at_position position note).isOk = true ↔
      -(c.notes.length : ℤ) ≤ position ∧ position < (c.notes.length : ℤ)) := by
  refine ⟨?_, ?_, ?_, ?_⟩
  · by_cases h : 0 ≤ position ∧ position < (c.notes.length : ℤ) <;>
      simp [Clip.get_note_at_position, h, Except.isOk, Except.toBool]
  · by_cases h : 0 ≤ position ∧ position < (c.durations.length : ℤ) <;>
      simp [Clip.get_duration_at_position, h, Except.isOk, Except.toBool]
  · by_cases h : 0 ≤ position ∧ position < (c.amplitudes.length : ℤ) <;>
      simp [Clip.get_amplitude_at_position, h, Except.isOk, Except.toBool]
  · intro note
    have hch := pyListSet_ok_iff c.notes position (some note)
    cases hp : pyListSet c.notes position (some note) with
    | ok ns =>
      rw [hp] at hch
      simp [Except.isOk, Except.toBool] at hch
      simp [Clip.set_note_at_position, hp, Except.isOk, Except.toBool, hch]
    | error e =>
      rw [hp] at hch
      simp [Except.isOk, Except.toBool] at hch
      simp [Clip.set_note_at_position, hp, Except.isOk, Except.toBool]
      omega

/-- Claim C9: on a clip whose owning track reference is None, the
mutating operations play, stop, play_stop and record_on_off return
without raising, issue no external calls, and leave the clip (its
playing, recording and cue-timestamp fields included) unchanged. -/
theorem orphan_clip_ops_are_noops (env : ClipEnv) (c : Clip)
    (h : c.track = none) :
    Clip.play env c = (c, []) ∧
    Clip.stop env c = (c, []) ∧
    Clip.play_stop env c = (c, []) ∧
    Clip.record_on_off c = (c, []) := by
  refine ⟨?_, ?_, ?_, ?_⟩ <;>
    simp [Clip.play, Clip.stop, Clip.play_stop, Clip.record_on_off, h]

/-- Claim C9, witness: the default clip constructed with no parent track
is left untouched by all four operations. -/
theorem orphan_clip_ops_are_noops_witness :
    (Clip.init none).track = none ∧
    (Clip.play { hasSeq := true, hasSession := true } (Clip.init none) =
        (Clip.init none, []) ∧
      Clip.stop { hasSeq := true, hasSession := true } (Clip.init none) =
        (Clip.init none, []) ∧
      Clip.play_stop { hasSeq := true, hasSession := true } (Clip.init none) =
        (Clip.init none, []) ∧
      Clip.record_on_off (Clip.init none) = (Clip.init none, [])) :=
  ⟨rfl, orphan_clip_ops_are_noops
    { hasSeq := true, hasSession := true } (Clip.init none) rfl⟩


/-- Interchange of the two timeline filters: by track key and by
schedule handle. -/
theorem filter_key_filter_handle (tl : List (String × ℕ)) (k : String) (h : ℕ) :
    (tl.filter (fun e => e.2 != h)).filter (fun e => e.1 == k) =
    (tl.filter (fun e => e.1 == k)).filter (fun e => e.2 != h) := by
  rw [List.filter_filter, List.filter_filter]
  exact List.filter_congr (fun x _ => Bool.and_comm _ _)

/-- Timeline left by unschedule_clip: the tracked handle is filtered
out when the key had a schedule. -/
theorem unschedule_clip_timeline (m : MidiManager) (k : String) :
    (m.unschedule_clip k).timeline =
      (match m.track_schedules k with
       | some h => m.timeline.filter (fun e => e.2 != h)
       | none => m.timeline) := by
  unfold MidiManager.unschedule_clip
  cases m.track_schedules k <;> rfl

/-- Schedules dictionary left by unschedule_clip: the key is cleared,
other keys are untouched. -/
theorem unschedule_clip_track_schedules (m : MidiManager) (k j : String) :
    (m.unschedule_clip k).track_schedules j =
      (if j = k then none else m.track_schedules j) := by
  unfold MidiManager.unschedule_clip
  cases hk : m.track_schedules k with
  | none =>
    by_cases hj : j = k
    · subst hj
      simp [hk]
    · simp [hj]
  | some h => rfl

/-- Clips dictionary left by unschedule_clip. -/
theorem unschedule_clip_track_clips (m : MidiManager) (k j : String) :
    (m.unschedule_clip k).track_clips j =
      (if j = k then none else m.track_clips j) := by
  unfold MidiManager.unschedule_clip
  cases m.track_schedules k <;> rfl

/-- Unschedule_clip does not change the fresh-handle counter. -/
theorem unschedule_clip_fresh (m : MidiManager) (k : String) :
    (m.unschedule_clip k).fresh = m.fresh := by
  unfold MidiManager.unschedule_clip
  cases m.track_schedules k <;> rfl

/-- Unschedule_clip does not change the device registry. -/
theorem unschedule_clip_output_devices (m : MidiManager) (k : String) :
    (m.unschedule_clip k).output_devices = m.output_devices := by
  unfold MidiManager.unschedule_clip
  cases m.track_schedules k <;> rfl

/-- When the clip's device does not resolve, schedule_clip stops after
the unconditional unschedule. -/
theorem schedule_clip_eq_of_no_device (m : MidiManager) (k : String)
    (clip : MClip)
    (h : (m.unschedule_clip k).output_devices clip.output_hardware_device_name
      = false) :
    m.schedule_clip k clip = m.unschedule_clip k := by
  unfold MidiManager.schedule_clip
  rw [h]
  rfl

/-- When the clip has no notes, schedule_clip stops after the
unconditional unschedule. -/
theorem schedule_clip_eq_of_no_notes (m : MidiManager) (k : String)
    (clip : MClip)
    (h : clip.notes.length = 0) :
    m.schedule_clip k clip = m.unschedule_clip k := by
  unfold MidiManager.schedule_clip
  rw [h]
  cases hd : (m.unschedule_clip k).output_devices
    clip.output_hardware_device_name <;> rfl

/-- Field-level description of a successful schedule_clip: one fresh
schedule is pushed on the timeline and recorded in both
dictionaries. -/
theorem schedule_clip_success_fields (m : MidiManager) (k : String)
    (clip : MClip)
    (hdev : (m.unschedule_clip k).output_devices
      clip.output_hardware_device_name = true)
    (hn : (clip.notes.length == 0) = false) :
    (m.schedule_clip k clip).timeline =
      (k, (m.unschedule_clip k).fresh) :: (m.unschedule_clip k).timeline ∧
    (m.schedule_clip k clip).fresh = (m.unschedule_clip k).fresh + 1 ∧
    (∀ j, (m.schedule_clip k clip).track_schedules j =
      (if j = k then some (m.unschedule_clip k).fresh
       else (m.unschedule_clip k).track_schedules j)) ∧
    (m.schedule_clip k clip).output_devices =
      (m.unschedule_clip k).output_devices ∧
    (∀ j, (m.schedule_clip k clip).track_clips j =
      (if j = k then some clip else (m.unschedule_clip k).track_clips j)) := by
  unfold MidiManager.schedule_clip
  rw [hdev, hn]
  exact ⟨rfl, rfl, fun j => rfl, rfl, fun j => rfl⟩

/-- Unschedule_clip preserves the scheduling invariant, clears the
key's schedule entry and leaves no timeline schedule for the key. -/
theorem inv_unschedule (m : MidiManager) (k : String) (hInv : m.Inv) :
    (m.unschedule_clip k).Inv ∧
    (m.unschedule_clip k).track_schedules k = none ∧
    (m.unschedule_clip k).timeline.filter (fun e => e.1 == k) = [] := by
  obtain ⟨hkey, hfresh, hnd⟩ := hInv
  have hts := unschedule_clip_track_schedules m k
  have htl := unschedule_clip_timeline m k
  have hkeyP : ∀ j, (m.unschedule_clip k).timeline.filter (fun e => e.1 == j) =
      (match (m.unschedule_clip k).track_schedules j with
       | some h => [(j, h)]
       | none => []) := by
    intro j
    rw [htl, hts j]
    cases hk : m.track_schedules k with
    | none =>
      by_cases hjk : j = k
      · subst hjk
        rw [if_pos rfl, hkey j, hk]
      · rw [if_neg hjk, hkey j]
    | some h =>
      have hmemk : (k, h) ∈ m.timeline := by
        have hf := hkey k
        rw [hk] at hf
        have : (k, h) ∈ m.timeline.filter (fun e => e.1 == k) := by
          rw [hf]; exact List.mem_singleton.mpr rfl
        exact (List.mem_filter.mp this).1
      rw [filter_key_filter_handle]
      by_cases hjk : j = k
      · subst hjk
        rw [if_pos rfl, hkey j, hk]
        simp
      · rw [if_neg hjk, hkey j]
        cases hj2 : m.track_schedules j with
        | none => simp
        | some h2 =>
          have hmemj : (j, h2) ∈ m.timeline := by
            have hf := hkey j
            rw [hj2] at hf
            have : (j, h2) ∈ m.timeline.filter (fun e => e.1 == j) := by
              rw [hf]; exact List.mem_singleton.mpr rfl
            exact (List.mem_filter.mp this).1
          have hne : h2 ≠ h := by
            intro he
            subst he
            have heq := List.inj_on_of_nodup_map hnd hmemk hmemj rfl
            exact hjk (congrArg Prod.fst heq).symm
          simp [hne]
  have hnone : (m.unschedule_clip k).track_schedules k = none := by
    rw [hts k, if_pos rfl]
  refine ⟨⟨hkeyP, ?_, ?_⟩, hnone, ?_⟩
  · intro e he
    rw [unschedule_clip_fresh]
    rw [htl] at he
    cases hk : m.track_schedules k with
    | none =>
      rw [hk] at he
      exact hfresh e he
    | some h =>
      rw [hk] at he
      exact hfresh e (List.mem_filter.mp he).1
  · rw [htl]
    cases hk : m.track_schedules k with
    | none => exact hnd
    | some h =>
      exact List.Nodup.sublist ((List.filter_sublist _).map _) hnd
  · rw [hkeyP k, hnone]

/-- Schedule_clip preserves the scheduling invariant on all of its
branches. -/
theorem inv_schedule (m : MidiManager) (k : String) (clip : MClip)
    (hInv : m.Inv) :
    (m.schedule_clip k clip).Inv := by
  obtain ⟨hu, hunone, hufilter⟩ := inv_unschedule m k hInv
  obtain ⟨hukey, hufreshb, hund⟩ := hu
  by_cases hdev : (m.unschedule_clip k).output_devices
      clip.output_hardware_device_name = true
  · by_cases hlen : clip.notes.length = 0
    · rw [schedule_clip_eq_of_no_notes m k clip hlen]
      exact ⟨hukey, hufreshb, hund⟩
    · have hn : (clip.notes.length == 0) = false := by simpa using hlen
      obtain ⟨htl, hfr, hts, _, _⟩ :=
        schedule_clip_success_fields m k clip hdev hn
      refine ⟨?_, ?_, ?_⟩
      · intro j
        rw [htl, hts j]
        by_cases hjk : j = k
        · subst hjk
          rw [if_pos rfl, List.filter_cons_of_pos (by simp), hufilter]
        · rw [if_neg hjk, List.filter_cons_of_neg (by simp [Ne.symm hjk]),
            hukey j]
      · intro e he
        rw [hfr]
        rw [htl] at he
        rcases List.mem_cons.mp he with he1 | he2
        · subst he1
          exact Nat.lt_succ_self _
        · exact Nat.lt_succ_of_lt (hufreshb e he2)
      · rw [htl, List.map_cons]
        refine List.nodup_cons.mpr ⟨?_, hund⟩
        intro hmem
        rcases List.mem_map.mp hmem with ⟨e, he, hsnd⟩
        have := hufreshb e he
        omega
  · have hdevf : (m.unschedule_clip k).output_devices
        clip.output_hardware_device_name = false := by
      cases hx : (m.unschedule_clip k).output_devices
          clip.output_hardware_device_name
      · rfl
      · exact absurd hx hdev
    rw [schedule_clip_eq_of_no_device m k clip hdevf]
    exact ⟨hukey, hufreshb, hund⟩

/-- Under the scheduling invariant each track key has at most one live
timeline schedule. -/
theorem liveCount_le_one_of_inv (m : MidiManager) (k : String) (hInv : m.Inv) :
    m.liveScheduleCount k ≤ 1 := by
  unfold MidiManager.liveScheduleCount
  rw [hInv.1 k]
  cases m.track_schedules k <;> simp

/-- A schedule_clip whose device resolves and whose clip has notes
leaves exactly one live timeline schedule for the key. -/
theorem liveCount_after_success (m : MidiManager) (k : String) (clip : MClip)
    (hInv : m.Inv)
    (hdev : m.output_devices clip.output_hardware_device_name = true)
    (hnotes : clip.notes ≠ []) :
    (m.schedule_clip k clip).liveScheduleCount k = 1 := by
  obtain ⟨hu, hunone, hufilter⟩ := inv_unschedule m k hInv
  have hdev1 : (m.unschedule_clip k).output_devices
      clip.output_hardware_device_name = true := by
    rw [unschedule_clip_output_devices]; exact hdev
  have hn : (clip.notes.length == 0) = false := by
    simp [List.length_eq_zero, hnotes]
  obtain ⟨htl, _, _, _, _⟩ := schedule_clip_success_fields m k clip hdev1 hn
  unfold MidiManager.liveScheduleCount
  rw [htl, List.filter_cons_of_pos (by simp), hufilter]
  rfl

/-- Claim C2, counterexample: calling schedule_clip twice in a row for
the same track key does not leave exactly one live schedule in every
case — when the clip's output device does not resolve, both calls abort
after the unconditional unschedule and zero schedules remain. -/
theorem schedule_clip_twice_counterexample :
    MidiManager.liveScheduleCount
      (MidiManager.schedule_clip
        (MidiManager.schedule_clip (MidiManager.start (fun _ => false)) "t0"
          { output_hardware_device_name := "dev1", notes := [some 60],
            playing := true })
        "t0"
        { output_hardware_device_name := "dev1", notes := [some 60],
          playing := true })
      "t0" = 0 := by
  decide

/-- Claim C2, amended: schedule_clip unconditionally unschedules any
prior schedule for the track key first, so from any state satisfying
the scheduling invariant, calling it twice in a row leaves at most one
live schedule for that track — never two — and exactly one whenever the
clip's output device resolves and the clip has at least one note. -/
theorem schedule_clip_twice_at_most_one (m : MidiManager) (track_idx : String)
    (clip : MClip) (hInv : m.Inv) :
    ((m.schedule_clip track_idx clip).schedule_clip track_idx
        clip).liveScheduleCount track_idx ≤ 1 ∧
    (m.output_devices clip.output_hardware_device_name = true →
      clip.notes ≠ [] →
      ((m.schedule_clip track_idx clip).schedule_clip track_idx
          clip).liveScheduleCount track_idx = 1) := by
  have h1 := inv_schedule m track_idx clip hInv
  refine ⟨liveCount_le_one_of_inv _ _ (inv_schedule _ track_idx clip h1),
    fun hdev hnotes => ?_⟩
  have hdev1 : (m.schedule_clip track_idx clip).output_devices
      clip.output_hardware_device_name = true := by
    by_cases hd : (m.unschedule_clip track_idx).output_devices
        clip.output_hardware_device_name = true
    · by_cases hlen : clip.notes.length = 0
      · rw [schedule_clip_eq_of_no_notes m track_idx clip hlen,
          unschedule_clip_output_devices]
        exact hdev
      · have hn : (clip.notes.length == 0) = false := by simpa using hlen
        obtain ⟨_, _, _, hod, _⟩ :=
          schedule_clip_success_fields m track_idx clip hd hn
        rw [hod, unschedule_clip_output_devices]
        exact hdev
    · have hdevf : (m.unschedule_clip track_idx).output_devices
          clip.output_hardware_device_name = false := by
        cases hx : (m.unschedule_clip track_idx).output_devices
            clip.output_hardware_device_name
        · rfl
        · exact absurd hx hd
      rw [schedule_clip_eq_of_no_device m track_idx clip hdevf,
        unschedule_clip_output_devices]
      exact hdev
  exact liveCount_after_success (m.schedule_clip track_idx clip) track_idx clip
    h1 hdev1 hnotes

/-- Claim C2, witness: from the initial state with one registered
device, scheduling a one-note clip twice on track t0 leaves exactly one
live schedule. -/
theorem schedule_clip_twice_witness :
    MidiManager.liveScheduleCount
      (MidiManager.schedule_clip
        (MidiManager.schedule_clip (MidiManager.start (fun n => n == "dev1"))
          "t0"
          { output_hardware_device_name := "dev1", notes := [some 60],
            playing := true })
        "t0"
        { output_hardware_device_name := "dev1", notes := [some 60],
          playing := true })
      "t0" = 1 := by
  have hInv : (MidiManager.start (fun n => n == "dev1")).Inv := by
    refine ⟨fun k => rfl, ?_, ?_⟩
    · intro e he
      exact absurd he (List.not_mem_nil e)
    · exact List.nodup_nil
  exact (schedule_clip_twice_at_most_one
    (MidiManager.start (fun n => n == "dev1")) "t0"
    { output_hardware_device_name := "dev1", notes := [some 60],
      playing := true } hInv).2 rfl (by simp)

/-- Unschedule_clip keeps the schedules and clips dictionaries on the
same key set. -/
theorem keysAgree_unschedule (m : MidiManager) (k : String)
    (h : m.KeysAgree) : (m.unschedule_clip k).KeysAgree := by
  intro j
  rw [unschedule_clip_track_schedules, unschedule_clip_track_clips]
  by_cases hj : j = k
  · rw [if_pos hj, if_pos hj]
    rfl
  · rw [if_neg hj, if_neg hj]
    exact h j

/-- Schedule_clip keeps the schedules and clips dictionaries on the
same key set. -/
theorem keysAgree_schedule (m : MidiManager) (k : String) (clip : MClip)
    (h : m.KeysAgree) : (m.schedule_clip k clip).KeysAgree := by
  have hu := keysAgree_unschedule m k h
  by_cases hdev : (m.unschedule_clip k).output_devices
      clip.output_hardware_device_name = true
  · by_cases hlen : clip.notes.length = 0
    · rw [schedule_clip_eq_of_no_notes m k clip hlen]
      exact hu
    · have hn : (clip.notes.length == 0) = false := by simpa using hlen
      obtain ⟨_, _, hts, _, htc⟩ :=
        schedule_clip_success_fields m k clip hdev hn
      intro j
      rw [hts j, htc j]
      by_cases hj : j = k
      · rw [if_pos hj, if_pos hj]
        rfl
      · rw [if_neg hj, if_neg hj]
        exact hu j
  · have hdevf : (m.unschedule_clip k).output_devices
        clip.output_hardware_device_name = false := by
      cases hx : (m.unschedule_clip k).output_devices
          clip.output_hardware_device_name
      · rfl
      · exact absurd hx hdev
    rw [schedule_clip_eq_of_no_device m k clip hdevf]
    exact hu

/-- Reschedule_clip keeps the schedules and clips dictionaries on the
same key set. -/
theorem keysAgree_reschedule (m : MidiManager) (k : String) (clip : MClip)
    (h : m.KeysAgree) : (m.reschedule_clip k clip).KeysAgree := by
  unfold MidiManager.reschedule_clip
  by_cases hc : ((m.track_schedules k).isSome && clip.playing) = true
  · rw [if_pos hc]
    exact keysAgree_schedule m k clip h
  · rw [if_neg hc]
    exact h

/-- Every single scheduling operation preserves key agreement. -/
theorem keysAgree_applyOp (m : MidiManager) (op : MMOp)
    (h : m.KeysAgree) : (m.applyOp op).KeysAgree := by
  cases op with
  | sched k c => exact keysAgree_schedule m k c h
  | unsched k => exact keysAgree_unschedule m k h
  | resched k c => exact keysAgree_reschedule m k c h

/-- Every sequence of scheduling operations preserves key agreement. -/
theorem keysAgree_applyOps (ops : List MMOp) :
    ∀ m : MidiManager, m.KeysAgree → (m.applyOps ops).KeysAgree := by
  induction ops with
  | nil =>
    intro m h
    exact h
  | cons op rest ih =>
    intro m h
    exact ih _ (keysAgree_applyOp m op h)

/-- Claim C10: after every sequence of schedule_clip, unschedule_clip
and reschedule_clip calls starting from the initial empty state, the
track_schedules and track_clips dictionaries contain exactly the same
set of track keys — a key has a recorded clip if and only if it has a
live schedule. -/
theorem track_schedules_and_clips_share_keys (devs : String → Bool)
    (ops : List MMOp) (k : String) :
    (((MidiManager.start devs).applyOps ops).track_schedules k).isSome =
      (((MidiManager.start devs).applyOps ops).track_clips k).isSome :=
  keysAgree_applyOps ops (MidiManager.start devs) (fun _ => rfl) k
